import Mathlib

/-!
Shallow embedding of the Trading-Engine repository core in Lean 4.

Python floats are modelled by `ℚ` (exact arithmetic); where a claim is
specifically about non-finite floats, a dedicated `FVal` type models the
IEEE special values.  Python dicts keyed by symbol are modelled by
association lists (`List (String × _)`) with dict-like lookup / assignment /
deletion helpers.  Timestamps (produced by `datetime.now()`) carry no
information used by any claim and are omitted from the records.
All modelling is in simulated trading mode (`config trading.mode ≠ live`),
which is the path the spec's claims describe.
-/

namespace TradingEngine

/-- `OrderType` enum of `src/execution/advanced_executor.py`. -/
inductive OrderType where
  | market
  | limit
  | stopLoss
  | takeProfit
  | trailingStop
deriving DecidableEq, Repr

/-- `OrderSide` enum of `src/execution/advanced_executor.py`. -/
inductive OrderSide where
  | buy
  | sell
deriving DecidableEq, Repr

/-- Order status strings of `advanced_executor.py` ("pending", "filled",
"cancelled", "failed"). -/
inductive OrderStatus where
  | pending
  | filled
  | cancelled
  | failed
deriving DecidableEq, Repr

/-- The `Order` class of `advanced_executor.py`.  `price` and `stop_price`
are `Optional[float]` in the source; the simulated execution path reads
them unconditionally, so the embedding models orders whose prices are
present (a `None` there is a Python `TypeError`, outside every claim). -/
structure Order where
  symbol : String
  order_type : OrderType
  side : OrderSide
  quantity : ℚ
  price : ℚ
  stop_price : ℚ
  status : OrderStatus
  filled_quantity : ℚ
  filled_price : ℚ
deriving DecidableEq, Repr

/-- `Order.__init__`: a fresh order is pending with zero fills. -/
def mkOrder (symbol : String) (order_type : OrderType) (side : OrderSide)
    (quantity price stop_price : ℚ) : Order :=
  { symbol := symbol
    order_type := order_type
    side := side
    quantity := quantity
    price := price
    stop_price := stop_price
    status := OrderStatus.pending
    filled_quantity := 0
    filled_price := 0 }

/-- A per-symbol position record of `ExecutionHandler.positions`. -/
structure Position where
  quantity : ℚ
  average_price : ℚ
  realized_pnl : ℚ
deriving DecidableEq, Repr

/-- A trade-ledger entry appended by `ExecutionHandler._record_trade`. -/
structure Trade where
  symbol : String
  order_type : OrderType
  side : OrderSide
  quantity : ℚ
  price : ℚ
  commission : ℚ
deriving DecidableEq, Repr

/-- Dict lookup on a string-keyed association list. -/
def alookup {β : Type} : List (String × β) → String → Option β
  | [], _ => none
  | e :: t, s => if e.1 = s then some e.2 else alookup t s

/-- Dict deletion (`del d[s]`) on a string-keyed association list. -/
def aerase {β : Type} (l : List (String × β)) (s : String) :
    List (String × β) :=
  l.filter (fun e => e.1 ≠ s)

/-- Dict assignment (`d[s] = v`) on a string-keyed association list. -/
def aset {β : Type} (l : List (String × β)) (s : String) (v : β) :
    List (String × β) :=
  (s, v) :: aerase l s

/-- Python `self.positions.get(symbol, {'quantity': 0, 'average_price': 0,
'realized_pnl': 0})`. -/
def posGet (ps : List (String × Position)) (s : String) : Position :=
  match alookup ps s with
  | some p => p
  | none => ⟨0, 0, 0⟩

/-- Python `del self.positions[symbol]` (dict deletion). -/
def posErase (ps : List (String × Position)) (s : String) :
    List (String × Position) :=
  aerase ps s

/-- Python `self.positions[symbol] = position` (dict assignment). -/
def posSet (ps : List (String × Position)) (s : String) (p : Position) :
    List (String × Position) :=
  aset ps s p

/-- The per-side position update of `ExecutionHandler._update_positions`
(the `if order.side == OrderSide.BUY / else` block): weighted-average
accumulation for a buy, realized-PnL booking and quantity reduction for a
sell. -/
def applyFill (position : Position) (o : Order) : Position :=
  match o.side with
  | OrderSide.buy =>
    let total_cost := position.quantity * position.average_price +
      o.filled_quantity * o.filled_price
    let new_quantity := position.quantity + o.filled_quantity
    { position with
        average_price := if new_quantity > 0 then total_cost / new_quantity else 0
        quantity := new_quantity }
  | OrderSide.sell =>
    { position with
        realized_pnl := position.realized_pnl +
          (o.filled_price - position.average_price) * o.filled_quantity
        quantity := position.quantity - o.filled_quantity }

/-- `ExecutionHandler._update_positions` of `advanced_executor.py`. -/
def updatePositions (ps : List (String × Position)) (o : Order) :
    List (String × Position) :=
  if o.status ≠ OrderStatus.filled then ps
  else
    let position' := applyFill (posGet ps o.symbol) o
    if position'.quantity = 0 then posErase ps o.symbol
    else posSet ps o.symbol position'

/-- `ExecutionHandler._record_trade`. -/
def recordTrade (commission : ℚ) (trades : List Trade) (o : Order) : List Trade :=
  if o.status ≠ OrderStatus.filled then trades
  else trades ++ [{ symbol := o.symbol
                    order_type := o.order_type
                    side := o.side
                    quantity := o.filled_quantity
                    price := o.filled_price
                    commission := o.filled_quantity * o.filled_price * commission }]

/-- `ExecutionHandler._execute_simulated_order`: slippage-adjusted market
fills, marketability test for limit orders, everything else untouched
(hence still pending). -/
def executeSimulatedOrder (slippage : ℚ) (o : Order) : Order :=
  let slippage_factor := 1 + slippage * (if o.side = OrderSide.buy then 1 else -1)
  match o.order_type with
  | OrderType.market =>
      { o with filled_price := o.price * slippage_factor
               status := OrderStatus.filled
               filled_quantity := o.quantity }
  | OrderType.limit =>
      if (o.side = OrderSide.buy ∧ o.price ≥ o.stop_price) ∨
         (o.side = OrderSide.sell ∧ o.price ≤ o.stop_price) then
        { o with filled_price := o.price
                 status := OrderStatus.filled
                 filled_quantity := o.quantity }
      else
        { o with status := OrderStatus.pending }
  | _ => o

/-- Mutable state of an `ExecutionHandler` instance (simulated mode). -/
structure EngineState where
  commission : ℚ
  slippage : ℚ
  positions : List (String × Position)
  orders : List Order
  trades : List Trade
deriving DecidableEq, Repr

/-- `ExecutionHandler.__init__` state (simulated mode). -/
def initEngine (commission slippage : ℚ) : EngineState :=
  { commission := commission
    slippage := slippage
    positions := []
    orders := []
    trades := [] }

/-- `ExecutionHandler.create_order` (simulated mode): builds the order,
resolves it through `_execute_simulated_order` (which updates positions and
records the trade for a fill), then appends it to the order list. -/
def createOrder (st : EngineState) (symbol : String) (order_type : OrderType)
    (side : OrderSide) (quantity price stop_price : ℚ) : Order × EngineState :=
  let o := executeSimulatedOrder st.slippage
    (mkOrder symbol order_type side quantity price stop_price)
  (o, { st with positions := updatePositions st.positions o
                trades := recordTrade st.commission st.trades o
                orders := st.orders ++ [o] })

/-- `ExecutionHandler.cancel_order` (simulated mode).  The Python method
mutates the `Order` object aliased into `self.orders`; the embedding
addresses the order by its index in that list. -/
def cancelOrder (st : EngineState) (i : Nat) : Bool × EngineState :=
  match st.orders.get? i with
  | none => (false, st)
  | some o =>
      if o.status ≠ OrderStatus.pending then (false, st)
      else
        let orders' := st.orders.set i { o with status := OrderStatus.cancelled }
        (true, { st with orders := orders' })

/-- `ExecutionHandler.get_position`. -/
def getPosition (st : EngineState) (s : String) : Position :=
  posGet st.positions s

/-- One public call on an `ExecutionHandler` (simulated mode).  Queries
(`get_position`, `get_open_orders`, `get_trade_history`,
`calculate_portfolio_value`) do not modify state and are represented by
`query`. -/
inductive EngineOp where
  | create (symbol : String) (order_type : OrderType) (side : OrderSide)
      (quantity price stop_price : ℚ)
  | cancel (i : Nat)
  | query
deriving Repr

/-- Apply one public call to the engine state. -/
def applyOp (st : EngineState) : EngineOp → EngineState
  | EngineOp.create s t sd q p sp => (createOrder st s t sd q p sp).2
  | EngineOp.cancel i => (cancelOrder st i).2
  | EngineOp.query => st

/-- Run a sequence of public calls from a starting state. -/
def runOps (st : EngineState) (ops : List EngineOp) : EngineState :=
  ops.foldl applyOp st

/-! ### The simple `Executor` of `src/execution/executor.py` and the
`Backtester` loop of `src/backtesting/backtester.py`. -/

/-- A `self.positions[symbol]` record of the simple `Executor`. -/
structure SimplePosition where
  signal : Int
  price : ℚ
  size : ℚ
deriving DecidableEq, Repr

/-- A trade record returned by `Executor.execute_trade`. -/
structure SimpleTrade where
  symbol : String
  isBuy : Bool
  price : ℚ
  size : ℚ
  commission : ℚ
  pnl : ℚ
deriving DecidableEq, Repr

/-- State of a simple `Executor` instance. -/
structure SimpleExecutor where
  commission : ℚ
  positions : List (String × SimplePosition)
  trades : List SimpleTrade
deriving DecidableEq, Repr

/-- Dict deletion on the simple executor's position table. -/
def sposErase (ps : List (String × SimplePosition)) (s : String) :
    List (String × SimplePosition) :=
  aerase ps s

/-- Dict assignment on the simple executor's position table. -/
def sposSet (ps : List (String × SimplePosition)) (s : String)
    (p : SimplePosition) : List (String × SimplePosition) :=
  aset ps s p

/-- `Executor._calculate_pnl`: gross PnL minus round-trip commission. -/
def calculatePnl (commission entry_price exit_price size : ℚ) (signal : Int) :
    ℚ :=
  (exit_price - entry_price) * size * (signal : ℚ) -
    (entry_price + exit_price) * size * commission

/-- `Executor.execute_trade`. -/
def executeTrade (ex : SimpleExecutor) (symbol : String) (signal : Int)
    (price size : ℚ) : SimpleTrade × SimpleExecutor :=
  let base : SimpleTrade :=
    { symbol := symbol
      isBuy := signal > 0
      price := price
      size := size
      commission := price * size * ex.commission
      pnl := 0 }
  match alookup ex.positions symbol with
  | some pos =>
      if signal ≠ pos.signal then
        -- Close existing position
        let t := { base with
          pnl := calculatePnl ex.commission pos.price price pos.size pos.signal }
        (t, { ex with positions := sposErase ex.positions symbol
                      trades := ex.trades ++ [t] })
      else
        -- Add to existing position
        let t := base
        let pos' := { pos with size := pos.size + size, price := price }
        (t, { ex with positions := sposSet ex.positions symbol pos'
                      trades := ex.trades ++ [t] })
  | none =>
      -- New position
      let t := base
      (t, { ex with positions := sposSet ex.positions symbol
                      ⟨signal, price, size⟩
                    trades := ex.trades ++ [t] })

/-- The `Backtester.run` capital updates for a single long round trip,
specialised to the claim's scenario: entry fill (`signal = 1`) at
`entry_price` with quantity `size`, then an exit fill at `exit_price`
closing the position held by the executor.  On entry the loop deducts the
trade's commission from capital; on exit it adds the trade's realized PnL
(which already nets both commissions).  Returns
(entry commission, exit realized PnL, final capital). -/
def backtestRoundTrip (initial_capital commission : ℚ) (symbol : String)
    (entry_price size exit_price : ℚ) : ℚ × ℚ × ℚ :=
  let ex0 : SimpleExecutor := ⟨commission, [], []⟩
  let r1 := executeTrade ex0 symbol 1 entry_price size
  let cap1 := initial_capital - r1.1.commission
  let heldSize :=
    match alookup r1.2.positions symbol with
    | some p => p.size
    | none => 0
  let r2 := executeTrade r1.2 symbol (-1) exit_price heldSize
  (r1.1.commission, r2.1.pnl, cap1 + r2.1.pnl)

/-! ### Risk managers. -/

/-- `RiskManager.calculate_position_size` of
`src/risk_management/advanced_risk.py`: volatility- and
correlation-adjusted notional, capped by the unadjusted maximum and
converted to a quantity. -/
def calculatePositionSizeAdv (max_position_size capital current_price
    volatility : ℚ) (correlation : Option ℚ) : ℚ :=
  let max_position_value := capital * max_position_size
  let vol_adjustment := 1 / (1 + volatility)
  let correlation_adjustment :=
    match correlation with
    | some c => 1 - |c|
    | none => 1
  let adjusted_position_value :=
    max_position_value * vol_adjustment * correlation_adjustment
  min (adjusted_position_value / current_price)
    (max_position_value / current_price)

/-- `RiskManager.calculate_position_size` of
`src/risk_management/risk_manager.py`.  The source divides by
`volatility * current_price`; when that product is zero Python raises
`ZeroDivisionError`, modelled here by `none`. -/
def calculatePositionSizeBasic (max_position_size capital current_price
    volatility : ℚ) : Option ℚ :=
  if volatility * current_price = 0 then none
  else
    let max_position_value := capital * max_position_size
    let risk_adjusted_size := max_position_value / (volatility * current_price)
    some (min risk_adjusted_size (max_position_value / current_price))

/-- `RiskManager.check_stop_loss` of `src/risk_management/risk_manager.py`. -/
def checkStopLoss (stop_loss entry_price current_price : ℚ)
    (position : Int) : Bool :=
  if position > 0 then decide (current_price < entry_price * (1 - stop_loss))
  else if position < 0 then
    decide (current_price > entry_price * (1 + stop_loss))
  else false

/-! ### Python float values with IEEE-754 special values.

Finite values are exact rationals; `nan`, `inf` and `neginf` model the
non-finite doubles.  Division is `Option`-valued because Python raises
`ZeroDivisionError` whenever the divisor is exactly `0.0`, for every
numerator including the non-finite ones. -/

/-- A Python float: a finite rational or an IEEE special value. -/
inductive FVal where
  | finite (q : ℚ)
  | nan
  | inf
  | neginf
deriving DecidableEq, Repr

/-- IEEE float addition (`+` on Python floats). -/
def fadd : FVal → FVal → FVal
  | FVal.nan, _ => FVal.nan
  | _, FVal.nan => FVal.nan
  | FVal.finite a, FVal.finite b => FVal.finite (a + b)
  | FVal.inf, FVal.neginf => FVal.nan
  | FVal.neginf, FVal.inf => FVal.nan
  | FVal.inf, _ => FVal.inf
  | _, FVal.inf => FVal.inf
  | FVal.neginf, _ => FVal.neginf
  | _, FVal.neginf => FVal.neginf

/-- IEEE float multiplication (`*` on Python floats). -/
def fmul : FVal → FVal → FVal
  | FVal.nan, _ => FVal.nan
  | _, FVal.nan => FVal.nan
  | FVal.finite a, FVal.finite b => FVal.finite (a * b)
  | FVal.finite a, FVal.inf =>
      if a > 0 then FVal.inf else if a < 0 then FVal.neginf else FVal.nan
  | FVal.inf, FVal.finite a =>
      if a > 0 then FVal.inf else if a < 0 then FVal.neginf else FVal.nan
  | FVal.finite a, FVal.neginf =>
      if a > 0 then FVal.neginf else if a < 0 then FVal.inf else FVal.nan
  | FVal.neginf, FVal.finite a =>
      if a > 0 then FVal.neginf else if a < 0 then FVal.inf else FVal.nan
  | FVal.inf, FVal.inf => FVal.inf
  | FVal.inf, FVal.neginf => FVal.neginf
  | FVal.neginf, FVal.inf => FVal.neginf
  | FVal.neginf, FVal.neginf => FVal.inf

/-- Python float division: `ZeroDivisionError` (`none`) on a zero divisor,
IEEE semantics otherwise. -/
def fdiv (a b : FVal) : Option FVal :=
  match b with
  | FVal.finite q =>
      if q = 0 then none
      else
        match a with
        | FVal.finite p => some (FVal.finite (p / q))
        | FVal.nan => some FVal.nan
        | FVal.inf => some (if q > 0 then FVal.inf else FVal.neginf)
        | FVal.neginf => some (if q > 0 then FVal.neginf else FVal.inf)
  | FVal.nan => some FVal.nan
  | FVal.inf =>
      match a with
      | FVal.finite _ => some (FVal.finite 0)
      | _ => some FVal.nan
  | FVal.neginf =>
      match a with
      | FVal.finite _ => some (FVal.finite 0)
      | _ => some FVal.nan

/-- IEEE float strict comparison: every comparison with `nan` is false. -/
def flt : FVal → FVal → Bool
  | FVal.nan, _ => false
  | _, FVal.nan => false
  | FVal.finite a, FVal.finite b => decide (a < b)
  | FVal.finite _, FVal.inf => true
  | FVal.finite _, FVal.neginf => false
  | FVal.inf, _ => false
  | FVal.neginf, FVal.neginf => false
  | FVal.neginf, _ => true

/-- Python `min(a, b)`: returns `a` unless `b < a` holds; with a `nan`
first argument every comparison is false, so the `nan` is returned. -/
def pymin (a b : FVal) : FVal :=
  if flt b a then b else a

/-- `advanced_risk.RiskManager.calculate_position_size` evaluated in Python
float semantics (no correlation supplied).  `none` is an uncaught
`ZeroDivisionError`; every `some` is a value returned to the caller. -/
def calculatePositionSizeAdvF (max_position_size capital current_price
    volatility : FVal) : Option FVal :=
  let max_position_value := fmul capital max_position_size
  match fdiv (FVal.finite 1) (fadd (FVal.finite 1) volatility) with
  | none => none
  | some vol_adjustment =>
      let adjusted_position_value :=
        fmul (fmul max_position_value vol_adjustment) (FVal.finite 1)
      match fdiv adjusted_position_value current_price,
            fdiv max_position_value current_price with
      | some a, some b => some (pymin a b)
      | _, _ => none

/-- `risk_manager.RiskManager.calculate_position_size` evaluated in Python
float semantics. -/
def calculatePositionSizeBasicF (max_position_size capital current_price
    volatility : FVal) : Option FVal :=
  let max_position_value := fmul capital max_position_size
  match fdiv max_position_value (fmul volatility current_price) with
  | none => none
  | some risk_adjusted_size =>
      match fdiv max_position_value current_price with
      | none => none
      | some cap => some (pymin risk_adjusted_size cap)

/-! ### `RiskManager.update_portfolio_risk` of `advanced_risk.py`. -/

/-- Column mean, as `pandas` computes it for `.cov()`. -/
def colMean (x : List ℚ) : ℚ := x.sum / (x.length : ℚ)

/-- `pandas` sample covariance of two aligned columns (`ddof = 1`). -/
def sampleCov (x y : List ℚ) : ℚ :=
  ((x.zip y).map (fun p => (p.1 - colMean x) * (p.2 - colMean y))).sum /
    ((x.length : ℚ) - 1)

/-- Dot product of two aligned rational vectors (`np.dot`). -/
def dotQ (a b : List ℚ) : ℚ := ((a.zip b).map (fun p => p.1 * p.2)).sum

/-- `np.dot(returns.cov(), w)`: the covariance matrix of the return
columns applied to a weight vector. -/
def covMatVec (cols : List (List ℚ)) (w : List ℚ) : List ℚ :=
  cols.map (fun x => dotQ (cols.map (fun y => sampleCov x y)) w)

/-- The quadratic form `wᵀ · Σ · w` with `Σ = returns.cov()` — the square
of the `portfolio_vol` computed on lines 170-173 of `advanced_risk.py`
(`np.sqrt(np.dot(w, np.dot(returns.cov(), w)))`). -/
def portVariance (w : List ℚ) (cols : List (List ℚ)) : ℚ :=
  dotQ w (covMatVec cols w)

/-- Result dict of `update_portfolio_risk`.  The code's `current_risk` is
`sqrt(wᵀΣw)`; the embedding carries its square `current_risk_sq`, which
determines it, keeping everything rational and executable. -/
structure RiskReport where
  rebalance_needed : Bool
  current_risk_sq : ℚ
  optimal_weights : Option (List ℚ)
deriving DecidableEq, Repr

/-- `RiskManager.update_portfolio_risk`.  The source compares
`portfolio_vol > self.max_drawdown` with `portfolio_vol = sqrt(wᵀΣw)`;
since `wᵀΣw ≥ 0` (Σ is a sample covariance matrix, a PSD form) and `sqrt`
is nonnegative, that comparison is exactly
`max_drawdown < 0 ∨ wᵀΣw > max_drawdown²`, which is how it is embedded.
`optimizerWeights` stands for the output of the external
`scipy`-based `PortfolioOptimizer.optimize_portfolio` call; the claims
track only whether suggested weights are returned. -/
def updatePortfolioRisk (max_drawdown : ℚ) (weights : List ℚ)
    (returnsCols : List (List ℚ)) (optimizerWeights : List ℚ) : RiskReport :=
  let v := portVariance weights returnsCols
  if max_drawdown < 0 ∨ v > max_drawdown ^ 2 then
    { rebalance_needed := true
      current_risk_sq := v
      optimal_weights := some optimizerWeights }
  else
    { rebalance_needed := false
      current_risk_sq := v
      optimal_weights := none }

/-- The spec's position-table invariant: no stored position has zero
quantity. -/
def PosInvariant (ps : List (String × Position)) : Prop :=
  ∀ e ∈ ps, (e.2).quantity ≠ 0

end TradingEngine

/-! ## Theorems -/

namespace TradingEngine

/-- After deleting a key, looking it up fails. -/
theorem alookup_aerase {β : Type} (l : List (String × β)) (s : String) :
    alookup (aerase l s) s = none := by
  induction l with
  | nil => rfl
  | cons e t ih =>
    by_cases h : e.1 = s
    · simpa [aerase, List.filter_cons, h] using ih
    · simpa [aerase, List.filter_cons, h, alookup] using ih

/-- Looking up a freshly assigned key returns the assigned value. -/
theorem alookup_aset {β : Type} (l : List (String × β)) (s : String) (v : β) :
    alookup (aset l s v) s = some v := by
  simp [aset, alookup]

/-- Deletion only removes entries. -/
theorem mem_aerase {β : Type} {l : List (String × β)} {s : String}
    {e : String × β} (h : e ∈ aerase l s) : e ∈ l :=
  List.mem_of_mem_filter h

/-- `_update_positions` preserves the no-zero-quantity invariant: the
touched symbol is either deleted (when its new quantity is exactly zero)
or stored with a nonzero quantity. -/
theorem updatePositions_invariant (ps : List (String × Position)) (o : Order)
    (h : PosInvariant ps) : PosInvariant (updatePositions ps o) := by
  unfold updatePositions
  split
  · exact h
  · dsimp only
    split
    · exact fun e he => h e (mem_aerase he)
    · rename_i hq
      intro e he
      rcases List.mem_cons.mp he with he | he
      · rw [he]
        exact hq
      · exact h e (mem_aerase he)

/-- `cancel_order` never touches the position table. -/
theorem cancelOrder_positions (st : EngineState) (i : Nat) :
    ((cancelOrder st i).2).positions = st.positions := by
  unfold cancelOrder
  cases st.orders.get? i with
  | none => rfl
  | some o =>
    dsimp only
    split
    · rfl
    · rfl

/-- Every public engine call preserves the no-zero-quantity invariant. -/
theorem applyOp_invariant (st : EngineState) (op : EngineOp)
    (h : PosInvariant st.positions) : PosInvariant (applyOp st op).positions := by
  cases op with
  | create s t sd q p sp => exact updatePositions_invariant _ _ h
  | cancel i => simpa [applyOp, cancelOrder_positions] using h
  | query => exact h

/-- Call sequences preserve the no-zero-quantity invariant. -/
theorem runOps_invariant (ops : List EngineOp) (st : EngineState)
    (h : PosInvariant st.positions) : PosInvariant (runOps st ops).positions := by
  induction ops generalizing st with
  | nil => exact h
  | cons op t ih => exact ih _ (applyOp_invariant _ _ h)

/-- C4 (confirmed): starting from the empty position table, after any
sequence of `create_order` / `cancel_order` / query calls on the
simulated `ExecutionHandler`, every stored position has nonzero
quantity. -/
theorem C4_no_zero_position (commission slippage : ℚ) (ops : List EngineOp)
    (e : String × Position)
    (he : e ∈ (runOps (initEngine commission slippage) ops).positions) :
    e.2.quantity ≠ 0 :=
  runOps_invariant ops (initEngine commission slippage)
    (fun x hx => by simp [initEngine] at hx) e he

/-- C1 (counterexample): for a short position of −10 at average price 100,
a filled BUY of 4 at price 90 — an opposite-direction fill — is routed
through the buy/averaging branch of `_update_positions`, so the realized
PnL recorded on the position is not increased by
(fill_price − average_price) × closed_quantity × sign, i.e. by
(90 − 100) × 4 × (−1) = 40; it stays 0. -/
theorem C1_counterexample :
    (posGet (updatePositions [("X", Position.mk (-10) 100 0)]
        (Order.mk "X" OrderType.market OrderSide.buy 4 90 0
          OrderStatus.filled 4 90)) "X").realized_pnl ≠
      (Position.mk (-10) 100 (0:ℚ)).realized_pnl +
        ((90:ℚ) - 100) * 4 * (-1) := by
  norm_num [updatePositions, applyFill, posGet, posSet, posErase, alookup,
    aset, aerase]

/-- C1 (amended): the claimed opposite-direction-fill rule holds for
long positions (sign +1): a filled SELL against a long position adds
realized PnL (fill_price − average_price) × fill_quantity, reduces the
quantity by the fill quantity, keeps the average price, and deletes the
entry exactly when the quantity reaches zero.  (A BUY against a short
position instead takes the averaging branch and records no realized PnL,
as `C1_counterexample` shows.) -/
theorem C1_long_close (ps : List (String × Position)) (o : Order)
    (p : Position) (hlook : alookup ps o.symbol = some p)
    (_hlong : 0 < p.quantity) (hstatus : o.status = OrderStatus.filled)
    (hside : o.side = OrderSide.sell) :
    (p.quantity = o.filled_quantity →
      alookup (updatePositions ps o) o.symbol = none) ∧
    (p.quantity ≠ o.filled_quantity →
      alookup (updatePositions ps o) o.symbol = some
        { quantity := p.quantity - o.filled_quantity
          average_price := p.average_price
          realized_pnl := p.realized_pnl +
            (o.filled_price - p.average_price) * o.filled_quantity }) := by
  have hg : posGet ps o.symbol = p := by simp [posGet, hlook]
  have hfill : applyFill p o =
      { quantity := p.quantity - o.filled_quantity
        average_price := p.average_price
        realized_pnl := p.realized_pnl +
          (o.filled_price - p.average_price) * o.filled_quantity } := by
    simp [applyFill, hside]
  have hupd : updatePositions ps o =
      if (applyFill p o).quantity = 0 then aerase ps o.symbol
      else aset ps o.symbol (applyFill p o) := by
    simp [updatePositions, hstatus, hg, posErase, posSet]
  constructor
  · intro hq
    rw [hupd, if_pos (by rw [hfill]; exact sub_eq_zero_of_eq hq)]
    exact alookup_aerase ps o.symbol
  · intro hq
    rw [hupd, if_neg (by rw [hfill]; exact sub_ne_zero_of_ne hq), hfill]
    exact alookup_aset ps o.symbol _

/-- Witness for C1 (amended): closing 4 out of a long 10 at 110 with
average price 100 leaves quantity 6, average 100 and realized PnL 40. -/
theorem C1_long_close_witness :
    alookup (updatePositions [("X", Position.mk 10 100 0)]
        (Order.mk "X" OrderType.market OrderSide.sell 4 110 0
          OrderStatus.filled 4 110)) "X" =
      some (Position.mk ((10:ℚ) - 4) 100 (0 + ((110:ℚ) - 100) * 4)) :=
  (C1_long_close [("X", Position.mk 10 100 0)]
    (Order.mk "X" OrderType.market OrderSide.sell 4 110 0
      OrderStatus.filled 4 110)
    (Position.mk 10 100 0) (by simp [alookup]) (by norm_num) rfl rfl).2
    (by norm_num)

/-- C2 (confirmed): with initial capital 100000 and commission rate 0.001,
a long entry at 100 for quantity 10 followed by a full exit at 110, run
through the `Backtester.run` capital updates, charges entry commission
1.0, books exit realized PnL 97.9, and ends at capital 100096.9. -/
theorem C2_roundtrip_scenario :
    backtestRoundTrip 100000 (1/1000) "S" 100 10 110 =
      (1, 979/10, 1000969/10) := by
  norm_num [backtestRoundTrip, executeTrade, calculatePnl, alookup, aset,
    aerase, sposSet, sposErase]

/-- Witness for C4 at a concrete call sequence: a market buy of 5 at
price 10 with zero slippage leaves the position `("A", ⟨5, 10, 0⟩)`, whose
quantity is nonzero. -/
theorem C4_no_zero_position_witness :
    (("A", Position.mk 5 10 0) : String × Position).2.quantity ≠ 0 :=
  C4_no_zero_position (1/1000) 0
    [EngineOp.create "A" OrderType.market OrderSide.buy 5 10 0]
    ("A", Position.mk 5 10 0)
    (by norm_num [runOps, applyOp, createOrder, executeSimulatedOrder, mkOrder,
      initEngine, updatePositions, applyFill, posGet, posSet, posErase,
      alookup, aset, aerase, recordTrade, Position.mk.injEq])

/-- C3 (confirmed): in the simulated path a market order fills in full at
requested price × (1 + slippage) for buys and × (1 − slippage) for
sells; a limit order fills in full at the limit price exactly when
marketable (buy: limit ≥ stop/reference price, sell: limit ≤ it), and
otherwise stays pending with zero filled quantity. -/
theorem C3_simulated_fill (slip : ℚ) (sym : String) (side : OrderSide)
    (q p sp : ℚ) :
    ((executeSimulatedOrder slip (mkOrder sym OrderType.market side q p sp)).status =
        OrderStatus.filled ∧
      (executeSimulatedOrder slip (mkOrder sym OrderType.market side q p sp)).filled_quantity = q ∧
      (executeSimulatedOrder slip (mkOrder sym OrderType.market side q p sp)).filled_price =
        (if side = OrderSide.buy then p * (1 + slip) else p * (1 - slip))) ∧
    (((side = OrderSide.buy ∧ p ≥ sp) ∨ (side = OrderSide.sell ∧ p ≤ sp)) →
      (executeSimulatedOrder slip (mkOrder sym OrderType.limit side q p sp)).status =
        OrderStatus.filled ∧
      (executeSimulatedOrder slip (mkOrder sym OrderType.limit side q p sp)).filled_quantity = q ∧
      (executeSimulatedOrder slip (mkOrder sym OrderType.limit side q p sp)).filled_price = p) ∧
    (¬((side = OrderSide.buy ∧ p ≥ sp) ∨ (side = OrderSide.sell ∧ p ≤ sp)) →
      (executeSimulatedOrder slip (mkOrder sym OrderType.limit side q p sp)).status =
        OrderStatus.pending ∧
      (executeSimulatedOrder slip (mkOrder sym OrderType.limit side q p sp)).filled_quantity = 0) := by
  refine ⟨⟨rfl, rfl, ?_⟩, ?_, ?_⟩
  · cases side
    · show p * (1 + slip * 1) = p * (1 + slip)
      ring
    · show p * (1 + slip * (-1)) = p * (1 - slip)
      ring
  · intro h
    simp only [executeSimulatedOrder, mkOrder]
    rw [if_pos h]
    exact ⟨rfl, rfl, rfl⟩
  · intro h
    simp only [executeSimulatedOrder, mkOrder]
    rw [if_neg h]
    exact ⟨rfl, rfl⟩

/-- Witness for C3: with slippage 0.001, a marketable buy limit at 10
against stop/reference price 9 fills in full at 10, and a non-marketable
buy limit at 8 against 9 stays pending unfilled. -/
theorem C3_simulated_fill_witness :
    ((executeSimulatedOrder (1/1000) (mkOrder "A" OrderType.limit OrderSide.buy 5 10 9)).status =
        OrderStatus.filled ∧
      (executeSimulatedOrder (1/1000) (mkOrder "A" OrderType.limit OrderSide.buy 5 10 9)).filled_quantity = 5 ∧
      (executeSimulatedOrder (1/1000) (mkOrder "A" OrderType.limit OrderSide.buy 5 10 9)).filled_price = 10) ∧
    ((executeSimulatedOrder (1/1000) (mkOrder "A" OrderType.limit OrderSide.buy 5 8 9)).status =
        OrderStatus.pending ∧
      (executeSimulatedOrder (1/1000) (mkOrder "A" OrderType.limit OrderSide.buy 5 8 9)).filled_quantity = 0) :=
  ⟨(C3_simulated_fill (1/1000) "A" OrderSide.buy 5 10 9).2.1
      (Or.inl ⟨rfl, by norm_num⟩),
    (C3_simulated_fill (1/1000) "A" OrderSide.buy 5 8 9).2.2
      (by rintro (⟨_, h⟩ | ⟨h, _⟩)
          · norm_num at h
          · exact OrderSide.noConfusion h)⟩

/-- C7 (confirmed): `check_stop_loss` is true for a long position exactly
when the current price is strictly below entry × (1 − stop_loss), and for
a short position exactly when it is strictly above entry × (1 + stop_loss);
with entry 100 and stop_loss 0.02, price 97.99 triggers and 98.01 does
not for a long position. -/
theorem C7_stop_loss_iff (sl entry cur : ℚ) (pos : Int) (_hentry : 0 < entry) :
    (0 < pos → (checkStopLoss sl entry cur pos = true ↔
      cur < entry * (1 - sl))) ∧
    (pos < 0 → (checkStopLoss sl entry cur pos = true ↔
      entry * (1 + sl) < cur)) ∧
    checkStopLoss (2/100) 100 (9799/100) 1 = true ∧
    checkStopLoss (2/100) 100 (9801/100) 1 = false := by
  refine ⟨?_, ?_, ?_, ?_⟩
  · intro h
    simp [checkStopLoss, h]
  · intro h
    have h' : ¬ pos > 0 := by omega
    simp [checkStopLoss, h, h']
  · norm_num [checkStopLoss]
  · norm_num [checkStopLoss]

/-- Witness for C7 at entry 100, stop-loss 0.02: the long trigger
condition is exactly `current < 98`, checked at 97.99 and 98.01. -/
theorem C7_stop_loss_iff_witness :
    (checkStopLoss (2/100) 100 (9799/100) 1 = true ↔
      (9799/100 : ℚ) < 100 * (1 - 2/100)) ∧
    checkStopLoss (2/100) 100 (9801/100) 1 = false :=
  ⟨(C7_stop_loss_iff (2/100) 100 (9799/100) 1 (by norm_num)).1 (by omega),
    (C7_stop_loss_iff (2/100) 100 (9801/100) 1 (by norm_num)).2.2.2⟩

/-- C8 (confirmed): `cancel_order` succeeds exactly on a pending order,
transitioning it to cancelled and touching nothing else; on a non-pending
order it returns failure and leaves the whole engine state unchanged. -/
theorem C8_cancel_iff_pending (st : EngineState) (i : Nat) (o : Order)
    (h : st.orders.get? i = some o) :
    ((cancelOrder st i).1 = true ↔ o.status = OrderStatus.pending) ∧
    (o.status ≠ OrderStatus.pending → (cancelOrder st i).2 = st) ∧
    (o.status = OrderStatus.pending →
      (cancelOrder st i).2.positions = st.positions ∧
      (cancelOrder st i).2.trades = st.trades ∧
      (cancelOrder st i).2.orders =
        st.orders.set i { o with status := OrderStatus.cancelled }) := by
  unfold cancelOrder
  rw [h]
  by_cases hp : o.status = OrderStatus.pending
  · simp [hp]
  · simp [hp]

/-- Witness for C8: cancelling the filled order of a concrete engine
state returns it unchanged. -/
theorem C8_cancel_iff_pending_witness :
    (cancelOrder (EngineState.mk (1/1000) (1/1000) []
      [Order.mk "A" OrderType.market OrderSide.buy 5 10 0
        OrderStatus.filled 5 10] []) 0).2 =
    EngineState.mk (1/1000) (1/1000) []
      [Order.mk "A" OrderType.market OrderSide.buy 5 10 0
        OrderStatus.filled 5 10] [] :=
  (C8_cancel_iff_pending
    (EngineState.mk (1/1000) (1/1000) []
      [Order.mk "A" OrderType.market OrderSide.buy 5 10 0
        OrderStatus.filled 5 10] []) 0
    (Order.mk "A" OrderType.market OrderSide.buy 5 10 0
      OrderStatus.filled 5 10) rfl).2.1 (by simp)

/-- C10 (confirmed): in simulated mode a stop-loss, take-profit or
trailing-stop order is returned pending with zero filled quantity, and
the position table and trade ledger are left unchanged. -/
theorem C10_advanced_kinds_pending (st : EngineState) (sym : String)
    (t : OrderType) (side : OrderSide) (q p sp : ℚ)
    (ht : t = OrderType.stopLoss ∨ t = OrderType.takeProfit ∨
      t = OrderType.trailingStop) :
    (createOrder st sym t side q p sp).1.status = OrderStatus.pending ∧
    (createOrder st sym t side q p sp).1.filled_quantity = 0 ∧
    (createOrder st sym t side q p sp).2.positions = st.positions ∧
    (createOrder st sym t side q p sp).2.trades = st.trades := by
  have ho : executeSimulatedOrder st.slippage (mkOrder sym t side q p sp) =
      mkOrder sym t side q p sp := by
    rcases ht with h | h | h <;> subst h <;> rfl
  refine ⟨?_, ?_, ?_, ?_⟩ <;>
    · simp only [createOrder]
      rw [ho]
      simp [mkOrder, updatePositions, recordTrade]

/-- Witness for C10: a simulated stop-loss order on a concrete engine
state stays pending and unfilled and changes no position or trade. -/
theorem C10_advanced_kinds_pending_witness :
    (createOrder (initEngine (1/1000) (1/1000)) "A" OrderType.stopLoss
      OrderSide.buy 5 10 9).1.status = OrderStatus.pending ∧
    (createOrder (initEngine (1/1000) (1/1000)) "A" OrderType.stopLoss
      OrderSide.buy 5 10 9).1.filled_quantity = 0 ∧
    (createOrder (initEngine (1/1000) (1/1000)) "A" OrderType.stopLoss
      OrderSide.buy 5 10 9).2.positions = (initEngine (1/1000) (1/1000)).positions ∧
    (createOrder (initEngine (1/1000) (1/1000)) "A" OrderType.stopLoss
      OrderSide.buy 5 10 9).2.trades = (initEngine (1/1000) (1/1000)).trades :=
  C10_advanced_kinds_pending (initEngine (1/1000) (1/1000)) "A"
    OrderType.stopLoss OrderSide.buy 5 10 9 (Or.inl rfl)

/-- C5 (counterexample): the basic `RiskManager.calculate_position_size`
divides by volatility × price, so with capital 100000 ≥ 0, price 100 > 0
and volatility 0 ≥ 0 the call raises `ZeroDivisionError` (`none`) instead
of returning a quantity. -/
theorem C5_counterexample :
    calculatePositionSizeBasic (1/10) 100000 100 0 = none := by
  norm_num [calculatePositionSizeBasic]

/-- C5 (amended): for capital ≥ 0, price > 0 and max fraction ≥ 0, the
advanced sizing satisfies all three claimed properties for volatility ≥ 0,
and the basic sizing satisfies them for volatility > 0 (at volatility = 0
it raises, see `C5_counterexample`): the result is non-negative, bounded
by capital × max_fraction / price, and non-increasing in volatility. -/
theorem C5_size_bounds_monotone (f cap p v1 v2 : ℚ) (hf : 0 ≤ f)
    (hcap : 0 ≤ cap) (hp : 0 < p) (hv1 : 0 ≤ v1) (hv : v1 ≤ v2) :
    (0 ≤ calculatePositionSizeAdv f cap p v1 none ∧
      calculatePositionSizeAdv f cap p v1 none ≤ cap * f / p ∧
      calculatePositionSizeAdv f cap p v2 none ≤
        calculatePositionSizeAdv f cap p v1 none) ∧
    (0 < v1 →
      ∃ q1 q2, calculatePositionSizeBasic f cap p v1 = some q1 ∧
        calculatePositionSizeBasic f cap p v2 = some q2 ∧
        0 ≤ q1 ∧ q1 ≤ cap * f / p ∧ q2 ≤ q1) := by
  have hM : (0:ℚ) ≤ cap * f := mul_nonneg hcap hf
  have h1 : (0:ℚ) < 1 + v1 := by linarith
  have h2 : (0:ℚ) < 1 + v2 := by linarith
  have e1 : calculatePositionSizeAdv f cap p v1 none =
      min (cap * f * (1 / (1 + v1)) * 1 / p) (cap * f / p) := rfl
  have e2 : calculatePositionSizeAdv f cap p v2 none =
      min (cap * f * (1 / (1 + v2)) * 1 / p) (cap * f / p) := rfl
  constructor
  · refine ⟨?_, ?_, ?_⟩
    · rw [e1]
      refine le_min (div_nonneg ?_ hp.le) (div_nonneg hM hp.le)
      exact mul_nonneg (mul_nonneg hM (one_div_nonneg.mpr h1.le)) zero_le_one
    · rw [e1]
      exact min_le_right _ _
    · rw [e1, e2]
      refine min_le_min ?_ le_rfl
      have hinv : 1 / (1 + v2) ≤ 1 / (1 + v1) :=
        one_div_le_one_div_of_le h1 (by linarith)
      gcongr
  · intro hv1pos
    have hv2pos : (0:ℚ) < v2 := lt_of_lt_of_le hv1pos hv
    have hd1 : v1 * p ≠ 0 := (mul_pos hv1pos hp).ne'
    have hd2 : v2 * p ≠ 0 := (mul_pos hv2pos hp).ne'
    refine ⟨min (cap * f / (v1 * p)) (cap * f / p),
      min (cap * f / (v2 * p)) (cap * f / p), ?_, ?_, ?_, ?_, ?_⟩
    · simp [calculatePositionSizeBasic, hd1]
    · simp [calculatePositionSizeBasic, hd2]
    · exact le_min (div_nonneg hM (mul_pos hv1pos hp).le)
        (div_nonneg hM hp.le)
    · exact min_le_right _ _
    · refine min_le_min ?_ le_rfl
      have hmono : v1 * p ≤ v2 * p := mul_le_mul_of_nonneg_right hv hp.le
      gcongr

/-- Witness for C5 (amended) at fraction 0.1, capital 100000, price 100,
volatilities 1 and 2. -/
theorem C5_size_bounds_monotone_witness :
    (0 ≤ calculatePositionSizeAdv (1/10) 100000 100 1 none ∧
      calculatePositionSizeAdv (1/10) 100000 100 1 none ≤
        100000 * (1/10) / 100 ∧
      calculatePositionSizeAdv (1/10) 100000 100 2 none ≤
        calculatePositionSizeAdv (1/10) 100000 100 1 none) ∧
    (0 < (1:ℚ) →
      ∃ q1 q2, calculatePositionSizeBasic (1/10) 100000 100 1 = some q1 ∧
        calculatePositionSizeBasic (1/10) 100000 100 2 = some q2 ∧
        0 ≤ q1 ∧ q1 ≤ 100000 * (1/10) / 100 ∧ q2 ≤ q1) :=
  C5_size_bounds_monotone (1/10) 100000 100 1 2 (by norm_num) (by norm_num)
    (by norm_num) (by norm_num) (by norm_num)

/-- C6 (counterexample): with max fraction 0.1, capital 100000 and price
100, a NaN volatility is not rejected: both `calculate_position_size`
implementations silently compute and return a NaN size (the repository
defines no `InvalidInput` condition anywhere). -/
theorem C6_counterexample :
    calculatePositionSizeAdvF (FVal.finite (1/10)) (FVal.finite 100000)
      (FVal.finite 100) FVal.nan = some FVal.nan ∧
    calculatePositionSizeBasicF (FVal.finite (1/10)) (FVal.finite 100000)
      (FVal.finite 100) FVal.nan = some FVal.nan := by
  constructor <;>
    norm_num [calculatePositionSizeAdvF, calculatePositionSizeBasicF,
      fadd, fmul, fdiv, pymin, flt]

/-- C6 (amended): neither sizing implementation validates its inputs —
for every finite max fraction, capital and nonzero price, a NaN
volatility propagates through the arithmetic and a NaN size is returned
to the caller instead of an `InvalidInput` rejection. -/
theorem C6_nan_propagates (f cap p : ℚ) (hp : p ≠ 0) :
    calculatePositionSizeAdvF (FVal.finite f) (FVal.finite cap)
      (FVal.finite p) FVal.nan = some FVal.nan ∧
    calculatePositionSizeBasicF (FVal.finite f) (FVal.finite cap)
      (FVal.finite p) FVal.nan = some FVal.nan := by
  constructor <;>
    simp [calculatePositionSizeAdvF, calculatePositionSizeBasicF,
      fadd, fmul, fdiv, pymin, flt, hp]

/-- Witness for C6 (amended) at fraction 0.2, capital 50000, price 200. -/
theorem C6_nan_propagates_witness :
    calculatePositionSizeAdvF (FVal.finite (1/5)) (FVal.finite 50000)
      (FVal.finite 200) FVal.nan = some FVal.nan ∧
    calculatePositionSizeBasicF (FVal.finite (1/5)) (FVal.finite 50000)
      (FVal.finite 200) FVal.nan = some FVal.nan :=
  C6_nan_propagates (1/5) 50000 200 (by norm_num)

/-- C9 (counterexample): with weights [1], one asset with returns
[0, 0.2] and max_drawdown 0.25, the code computes the unannualized
portfolio variance wᵀΣw = 0.02; since sqrt(0.02) ≤ 0.25 it does not
rebalance and returns no weights — while the claim's annualized variance
252 × 0.02 = 5.04 exceeds 0.25² (so the claimed annualized volatility
exceeds the threshold), and the claimed annualized risk differs from the
code's. -/
theorem C9_counterexample :
    (updatePortfolioRisk (1/4) [1] [[0, 1/5]] [1]).rebalance_needed = false ∧
    (updatePortfolioRisk (1/4) [1] [[0, 1/5]] [1]).optimal_weights = none ∧
    252 * portVariance [1] [[0, 1/5]] > ((1/4 : ℚ)) ^ 2 ∧
    (updatePortfolioRisk (1/4) [1] [[0, 1/5]] [1]).current_risk_sq ≠
      252 * portVariance [1] [[0, 1/5]] := by
  norm_num [updatePortfolioRisk, portVariance, covMatVec, sampleCov,
    colMean, dotQ]

/-- C9 (amended): `update_portfolio_risk` computes its current risk as
the unannualized portfolio volatility sqrt(wᵀ·Σ·w) with Σ the sample
covariance of the returns (carried here as its square), and returns
rebalance_needed = true together with the optimizer's weights exactly
when that unannualized volatility exceeds max_drawdown. -/
theorem C9_portfolio_risk_unannualized (dd : ℚ) (w optW : List ℚ)
    (cols : List (List ℚ)) (hd : 0 ≤ dd) :
    ((updatePortfolioRisk dd w cols optW).rebalance_needed = true ↔
      portVariance w cols > dd ^ 2) ∧
    (updatePortfolioRisk dd w cols optW).current_risk_sq =
      portVariance w cols ∧
    ((updatePortfolioRisk dd w cols optW).optimal_weights = some optW ↔
      portVariance w cols > dd ^ 2) := by
  have hdd : ¬ dd < 0 := not_lt.mpr hd
  simp only [updatePortfolioRisk]
  split
  · rename_i h
    rcases h with h | h
    · exact absurd h hdd
    · simp [h]
  · rename_i h
    push_neg at h
    have hng : ¬ portVariance w cols > dd ^ 2 := not_lt.mpr h.2
    simp [hng]

/-- Witness for C9 (amended) at max_drawdown 0.25, weights [1], returns
[0, 0.2]: the variance 0.02 does not exceed 0.0625, so no rebalance. -/
theorem C9_portfolio_risk_unannualized_witness :
    ((updatePortfolioRisk (1/4) [1] [[0, 1/5]] [1]).rebalance_needed = true ↔
      portVariance [1] [[0, 1/5]] > ((1/4 : ℚ)) ^ 2) ∧
    (updatePortfolioRisk (1/4) [1] [[0, 1/5]] [1]).current_risk_sq =
      portVariance [1] [[0, 1/5]] ∧
    ((updatePortfolioRisk (1/4) [1] [[0, 1/5]] [1]).optimal_weights =
        some [1] ↔ portVariance [1] [[0, 1/5]] > ((1/4 : ℚ)) ^ 2) :=
  C9_portfolio_risk_unannualized (1/4) [1] [1] [[0, 1/5]] (by norm_num)

end TradingEngine
